import Mathlib

/-!
Shallow embedding of the GPX trace-statistics routines of the
`gpx-snippets` repository (src/src/lib/stats.ts, src/src/lib/location.ts
as re-exported through src/src/lib/file.ts, and the duplicated inline
copy in src/src/routes/gpx/+page.svelte).

Modelling choices:
* JavaScript `number` values (latitude, longitude, elevation, distance
  accumulators) are modelled as real numbers.
* A `Date` is modelled by its epoch-milliseconds value
  (`Date.prototype.getTime`), an integer; `Date` objects are always
  truthy in JavaScript, so `if (point.time)` is a presence test.
* TypeScript optional fields (`elevation?: number`, `time?: Date`) and
  `X | null` results are `Option`s.
* The `Infinity` / `-Infinity` sentinels of the running min/max in
  `calculateStats` are modelled by `Option ℝ` accumulators: `none` is
  the untouched sentinel, and `Math.min(Infinity, e) = e` /
  `Math.max(-Infinity, e) = e` become the `none` case of the update.
* In `point.elevation - (points[i - 1].elevation || 0)` the `|| 0`
  fires (under the enclosing `!== undefined` guard) only when the
  previous elevation is `0`, where it is the identity, so the delta is
  embedded as the plain difference.
-/

namespace GPX

/-- A GPX track point (src/src/lib/types.ts, `GPXPoint`). -/
structure GPXPoint where
  lat : ℝ
  lon : ℝ
  elevation : Option ℝ
  time : Option ℤ

/-- Trace statistics (src/src/lib/types.ts, `TraceStats`). -/
structure TraceStats where
  totalDistance : ℝ
  totalElevationGain : ℝ
  totalElevationLoss : ℝ
  minElevation : Option ℝ
  maxElevation : Option ℝ
  duration : Option ℤ
  startTime : Option ℤ
  endTime : Option ℤ
  pointCount : ℕ

/-- JavaScript `Math.atan2` over real numbers (signed zeros ignored:
`atan2 0 0 = 0`). -/
noncomputable def atan2 (y x : ℝ) : ℝ :=
  if 0 < x then Real.arctan (y / x)
  else if x < 0 then
    if 0 ≤ y then Real.arctan (y / x) + Real.pi
    else Real.arctan (y / x) - Real.pi
  else if 0 < y then Real.pi / 2
  else if y < 0 then -(Real.pi / 2)
  else 0

/-- Haversine great-circle distance in meters
(src/src/lib/location.ts, `calculateDistance`). -/
noncomputable def calculateDistance (p1 p2 : GPXPoint) : ℝ :=
  let R : ℝ := 6371000
  let φ1 := p1.lat * Real.pi / 180
  let φ2 := p2.lat * Real.pi / 180
  let Δφ := (p2.lat - p1.lat) * Real.pi / 180
  let Δlon := (p2.lon - p1.lon) * Real.pi / 180
  let a := Real.sin (Δφ / 2) * Real.sin (Δφ / 2) +
    Real.cos φ1 * Real.cos φ2 * Real.sin (Δlon / 2) * Real.sin (Δlon / 2)
  let c := 2 * atan2 (Real.sqrt a) (Real.sqrt (1 - a))
  R * c

/-- The mutable accumulators of the loop in `calculateStats`
(src/src/lib/stats.ts lines 12-18). -/
structure LoopState where
  totalDistance : ℝ
  totalElevationGain : ℝ
  totalElevationLoss : ℝ
  minElevation : Option ℝ
  maxElevation : Option ℝ
  startTime : Option ℤ
  endTime : Option ℤ

/-- Initial accumulator values (src/src/lib/stats.ts lines 12-18). -/
def initState : LoopState :=
  { totalDistance := 0
    totalElevationGain := 0
    totalElevationLoss := 0
    minElevation := none
    maxElevation := none
    startTime := none
    endTime := none }

/-- `Math.min` against the `Infinity` sentinel. -/
noncomputable def minOpt (m : Option ℝ) (e : ℝ) : ℝ :=
  match m with
  | none => e
  | some x => min x e

/-- `Math.max` against the `-Infinity` sentinel. -/
noncomputable def maxOpt (m : Option ℝ) (e : ℝ) : ℝ :=
  match m with
  | none => e
  | some x => max x e

/-- Elevation block of the loop body (src/src/lib/stats.ts lines 23-36):
running min/max over the current point when it has an elevation, and the
gain/loss update when the previous point also has one. -/
noncomputable def stepElev (prev : Option GPXPoint) (p : GPXPoint)
    (s : LoopState) : LoopState :=
  match p.elevation with
  | none => s
  | some e =>
    let s1 : LoopState :=
      { s with
        minElevation := some (minOpt s.minElevation e)
        maxElevation := some (maxOpt s.maxElevation e) }
    match prev.bind GPXPoint.elevation with
    | none => s1
    | some pe =>
      let elevDiff := e - pe
      if 0 < elevDiff then
        { s1 with totalElevationGain := s1.totalElevationGain + elevDiff }
      else
        { s1 with totalElevationLoss := s1.totalElevationLoss + |elevDiff| }

/-- Time block of the loop body (src/src/lib/stats.ts lines 38-42):
`startTime` is set by the first timestamped point, `endTime` by every
timestamped point. -/
def stepTime (p : GPXPoint) (s : LoopState) : LoopState :=
  match p.time with
  | none => s
  | some t =>
    { s with
      startTime := match s.startTime with
        | none => some t
        | some t0 => some t0
      endTime := some t }

/-- Distance block of the loop body (src/src/lib/stats.ts lines 44-48):
for `i > 0` add the segment distance from the previous point. -/
noncomputable def stepDist (prev : Option GPXPoint) (p : GPXPoint)
    (s : LoopState) : LoopState :=
  match prev with
  | none => s
  | some q => { s with totalDistance := s.totalDistance + calculateDistance q p }

/-- One full iteration of the loop body of `calculateStats`
(src/src/lib/stats.ts lines 20-49), in source order: elevation stats,
time stats, distance. -/
noncomputable def stepStats (prev : Option GPXPoint) (s : LoopState)
    (p : GPXPoint) : LoopState :=
  stepDist prev p (stepTime p (stepElev prev p s))

/-- The `for` loop of `calculateStats`, with the previous point
(`points[i - 1]`) threaded explicitly. -/
noncomputable def statsFold : List GPXPoint → Option GPXPoint → LoopState → LoopState
  | [], _, s => s
  | p :: rest, prev, s => statsFold rest (some p) (stepStats prev s p)

/-- Trace statistics (src/src/lib/stats.ts, `calculateStats`): `none`
for fewer than two points, otherwise the aggregated record; note the
division by 1000 on `totalDistance` (line 54, "Convert to km"). -/
noncomputable def calculateStats (points : List GPXPoint) : Option TraceStats :=
  if points.length < 2 then none
  else
    let s := statsFold points none initState
    let duration : Option ℤ :=
      match s.startTime, s.endTime with
      | some st, some et => some (et - st)
      | _, _ => none
    some
      { totalDistance := s.totalDistance / 1000
        totalElevationGain := s.totalElevationGain
        totalElevationLoss := s.totalElevationLoss
        minElevation := s.minElevation
        maxElevation := s.maxElevation
        duration := duration
        startTime := s.startTime
        endTime := s.endTime
        pointCount := points.length }

/-- Duration formatting (src/src/lib/stats.ts, `formatDuration`): the
JavaScript falsiness test `!milliseconds` is true for `null` and for
`0`; `Math.floor` of a division is `Int.fdiv` and JavaScript `%` is
`Int.tmod`. -/
def formatDuration (milliseconds : Option ℤ) : String :=
  match milliseconds with
  | none => "N/A"
  | some ms =>
    if ms = 0 then "N/A"
    else
      let hours := Int.fdiv ms (1000 * 60 * 60)
      let minutes := Int.fdiv (Int.tmod ms (1000 * 60 * 60)) (1000 * 60)
      if 0 < hours then toString hours ++ "h " ++ toString minutes ++ "m"
      else toString minutes ++ "m"

end GPX

namespace GPXPage

open GPX (GPXPoint TraceStats LoopState initState minOpt maxOpt)

/-!
The `gpx` route component (src/src/routes/gpx/+page.svelte, lines
121-186) duplicates `calculateStats` verbatim, except that the Haversine
distance is inlined into the loop body (lines 156-170) instead of
calling the library's `calculateDistance`.  Its local `GPXPoint` /
`TraceStats` interfaces are structurally identical to the library ones,
so the same Lean structures model both.
-/

/-- The inlined Haversine block of the duplicated loop
(src/src/routes/gpx/+page.svelte lines 156-169). -/
noncomputable def pageSegmentDistance (prev point : GPXPoint) : ℝ :=
  let R : ℝ := 6371000
  let φ1 := prev.lat * Real.pi / 180
  let φ2 := point.lat * Real.pi / 180
  let Δφ := (point.lat - prev.lat) * Real.pi / 180
  let Δlon := (point.lon - prev.lon) * Real.pi / 180
  let a := Real.sin (Δφ / 2) * Real.sin (Δφ / 2) +
    Real.cos φ1 * Real.cos φ2 * Real.sin (Δlon / 2) * Real.sin (Δlon / 2)
  let c := 2 * GPX.atan2 (Real.sqrt a) (Real.sqrt (1 - a))
  R * c

/-- Elevation block of the duplicated loop body
(src/src/routes/gpx/+page.svelte lines 135-148). -/
noncomputable def pageStepElev (prev : Option GPXPoint) (p : GPXPoint)
    (s : LoopState) : LoopState :=
  match p.elevation with
  | none => s
  | some e =>
    let s1 : LoopState :=
      { s with
        minElevation := some (minOpt s.minElevation e)
        maxElevation := some (maxOpt s.maxElevation e) }
    match prev.bind GPXPoint.elevation with
    | none => s1
    | some pe =>
      let elevDiff := e - pe
      if 0 < elevDiff then
        { s1 with totalElevationGain := s1.totalElevationGain + elevDiff }
      else
        { s1 with totalElevationLoss := s1.totalElevationLoss + |elevDiff| }

/-- Time block of the duplicated loop body
(src/src/routes/gpx/+page.svelte lines 150-154). -/
def pageStepTime (p : GPXPoint) (s : LoopState) : LoopState :=
  match p.time with
  | none => s
  | some t =>
    { s with
      startTime := match s.startTime with
        | none => some t
        | some t0 => some t0
      endTime := some t }

/-- Distance block of the duplicated loop body, with the Haversine
formula inlined (src/src/routes/gpx/+page.svelte lines 156-170). -/
noncomputable def pageStepDist (prev : Option GPXPoint) (p : GPXPoint)
    (s : LoopState) : LoopState :=
  match prev with
  | none => s
  | some q => { s with totalDistance := s.totalDistance + pageSegmentDistance q p }

/-- One full iteration of the duplicated loop body
(src/src/routes/gpx/+page.svelte lines 132-171). -/
noncomputable def pageStepStats (prev : Option GPXPoint) (s : LoopState)
    (p : GPXPoint) : LoopState :=
  pageStepDist prev p (pageStepTime p (pageStepElev prev p s))

/-- The `for` loop of the duplicated `calculateStats`. -/
noncomputable def pageStatsFold : List GPXPoint → Option GPXPoint → LoopState → LoopState
  | [], _, s => s
  | p :: rest, prev, s => pageStatsFold rest (some p) (pageStepStats prev s p)

/-- The duplicated `calculateStats`
(src/src/routes/gpx/+page.svelte lines 121-186). -/
noncomputable def calculateStats (points : List GPXPoint) : Option TraceStats :=
  if points.length < 2 then none
  else
    let s := pageStatsFold points none initState
    let duration : Option ℤ :=
      match s.startTime, s.endTime with
      | some st, some et => some (et - st)
      | _, _ => none
    some
      { totalDistance := s.totalDistance / 1000
        totalElevationGain := s.totalElevationGain
        totalElevationLoss := s.totalElevationLoss
        minElevation := s.minElevation
        maxElevation := s.maxElevation
        duration := duration
        startTime := s.startTime
        endTime := s.endTime
        pointCount := points.length }

end GPXPage

namespace GPX

/-- First-some choice on options (the shape of `startTime` / `endTime`
updates and of `getLast?` unfoldings). -/
def optOr {α : Type _} (a b : Option α) : Option α :=
  match a with
  | some x => some x
  | none => b

/-- Prepend an optional previous point (the pair-window seen by the loop
when it starts with `prev` in scope). -/
def consOpt (prev : Option GPXPoint) (l : List GPXPoint) : List GPXPoint :=
  match prev with
  | none => l
  | some p => p :: l

/-- Specification-side quantity: the sum of the Haversine great-circle
distances over all consecutive point pairs (the spec's
`totalDistanceMeters`). -/
noncomputable def pairwiseDistanceSum : List GPXPoint → ℝ
  | p :: q :: rest => calculateDistance p q + pairwiseDistanceSum (q :: rest)
  | _ => 0

/-- Specification-side quantity: the positive elevation delta of one
consecutive pair when both points record an elevation, else 0. -/
noncomputable def pairGain (q p : GPXPoint) : ℝ :=
  match q.elevation, p.elevation with
  | some qe, some pe => if 0 < pe - qe then pe - qe else 0
  | _, _ => 0

/-- Specification-side quantity: the absolute value of the negative
elevation delta of one consecutive pair when both points record an
elevation, else 0. -/
noncomputable def pairLoss (q p : GPXPoint) : ℝ :=
  match q.elevation, p.elevation with
  | some qe, some pe => if pe - qe < 0 then |pe - qe| else 0
  | _, _ => 0

/-- Specification-side quantity: sum of positive elevation deltas over
consecutive pairs where both points record an elevation (the spec's
`elevationGainMeters`). -/
noncomputable def specElevationGain : List GPXPoint → ℝ
  | p :: q :: rest => pairGain p q + specElevationGain (q :: rest)
  | _ => 0

/-- Specification-side quantity: sum of absolute values of negative
elevation deltas over consecutive pairs where both points record an
elevation (the spec's `elevationLossMeters`). -/
noncomputable def specElevationLoss : List GPXPoint → ℝ
  | p :: q :: rest => pairLoss p q + specElevationLoss (q :: rest)
  | _ => 0

/-- Distance contributed by a single loop iteration. -/
noncomputable def distStep (prev : Option GPXPoint) (p : GPXPoint) : ℝ :=
  match prev with
  | none => 0
  | some q => calculateDistance q p

/-- Running-min update contributed by a single loop iteration. -/
noncomputable def minStep (m : Option ℝ) (p : GPXPoint) : Option ℝ :=
  match p.elevation with
  | none => m
  | some e => some (minOpt m e)

/-- Running-max update contributed by a single loop iteration. -/
noncomputable def maxStep (m : Option ℝ) (p : GPXPoint) : Option ℝ :=
  match p.elevation with
  | none => m
  | some e => some (maxOpt m e)

theorem optOr_none_left {α : Type _} (b : Option α) : optOr none b = b := rfl

theorem optOr_none_right {α : Type _} (a : Option α) : optOr a none = a := by
  cases a <;> rfl

theorem optOr_some_left {α : Type _} (x : α) (b : Option α) :
    optOr (some x) b = some x := rfl

theorem optOr_assoc {α : Type _} (a b c : Option α) :
    optOr (optOr a b) c = optOr a (optOr b c) := by
  cases a <;> rfl

theorem stepElev_totalDistance (prev : Option GPXPoint) (p : GPXPoint)
    (s : LoopState) : (stepElev prev p s).totalDistance = s.totalDistance := by
  unfold stepElev
  split
  · rfl
  · dsimp only
    split
    · rfl
    · split <;> rfl

theorem stepElev_startTime (prev : Option GPXPoint) (p : GPXPoint)
    (s : LoopState) : (stepElev prev p s).startTime = s.startTime := by
  unfold stepElev
  split
  · rfl
  · dsimp only
    split
    · rfl
    · split <;> rfl

theorem stepElev_endTime (prev : Option GPXPoint) (p : GPXPoint)
    (s : LoopState) : (stepElev prev p s).endTime = s.endTime := by
  unfold stepElev
  split
  · rfl
  · dsimp only
    split
    · rfl
    · split <;> rfl

theorem stepElev_minElevation (prev : Option GPXPoint) (p : GPXPoint)
    (s : LoopState) : (stepElev prev p s).minElevation = minStep s.minElevation p := by
  unfold stepElev minStep
  split
  · rfl
  · dsimp only
    split
    · rfl
    · split <;> rfl

theorem stepElev_maxElevation (prev : Option GPXPoint) (p : GPXPoint)
    (s : LoopState) : (stepElev prev p s).maxElevation = maxStep s.maxElevation p := by
  unfold stepElev maxStep
  split
  · rfl
  · dsimp only
    split
    · rfl
    · split <;> rfl

theorem stepTime_totalDistance (p : GPXPoint) (s : LoopState) :
    (stepTime p s).totalDistance = s.totalDistance := by
  unfold stepTime
  split <;> rfl

theorem stepTime_totalElevationGain (p : GPXPoint) (s : LoopState) :
    (stepTime p s).totalElevationGain = s.totalElevationGain := by
  unfold stepTime
  split <;> rfl

theorem stepTime_totalElevationLoss (p : GPXPoint) (s : LoopState) :
    (stepTime p s).totalElevationLoss = s.totalElevationLoss := by
  unfold stepTime
  split <;> rfl

theorem stepTime_minElevation (p : GPXPoint) (s : LoopState) :
    (stepTime p s).minElevation = s.minElevation := by
  unfold stepTime
  split <;> rfl

theorem stepTime_maxElevation (p : GPXPoint) (s : LoopState) :
    (stepTime p s).maxElevation = s.maxElevation := by
  unfold stepTime
  split <;> rfl

theorem stepTime_startTime (p : GPXPoint) (s : LoopState) :
    (stepTime p s).startTime = optOr s.startTime p.time := by
  unfold stepTime optOr
  cases hp : p.time with
  | none => cases s.startTime <;> rfl
  | some t => cases s.startTime <;> rfl

theorem stepTime_endTime (p : GPXPoint) (s : LoopState) :
    (stepTime p s).endTime = optOr p.time s.endTime := by
  unfold stepTime optOr
  cases hp : p.time <;> rfl

theorem stepDist_totalDistance (prev : Option GPXPoint) (p : GPXPoint)
    (s : LoopState) :
    (stepDist prev p s).totalDistance = s.totalDistance + distStep prev p := by
  unfold stepDist distStep
  cases prev
  · exact (add_zero _).symm
  · rfl

theorem stepDist_totalElevationGain (prev : Option GPXPoint) (p : GPXPoint)
    (s : LoopState) :
    (stepDist prev p s).totalElevationGain = s.totalElevationGain := by
  unfold stepDist
  cases prev <;> rfl

theorem stepDist_totalElevationLoss (prev : Option GPXPoint) (p : GPXPoint)
    (s : LoopState) :
    (stepDist prev p s).totalElevationLoss = s.totalElevationLoss := by
  unfold stepDist
  cases prev <;> rfl

theorem stepDist_minElevation (prev : Option GPXPoint) (p : GPXPoint)
    (s : LoopState) : (stepDist prev p s).minElevation = s.minElevation := by
  unfold stepDist
  cases prev <;> rfl

theorem stepDist_maxElevation (prev : Option GPXPoint) (p : GPXPoint)
    (s : LoopState) : (stepDist prev p s).maxElevation = s.maxElevation := by
  unfold stepDist
  cases prev <;> rfl

theorem stepDist_startTime (prev : Option GPXPoint) (p : GPXPoint)
    (s : LoopState) : (stepDist prev p s).startTime = s.startTime := by
  unfold stepDist
  cases prev <;> rfl

theorem stepDist_endTime (prev : Option GPXPoint) (p : GPXPoint)
    (s : LoopState) : (stepDist prev p s).endTime = s.endTime := by
  unfold stepDist
  cases prev <;> rfl

end GPX

namespace GPX

/-- Elevation gain contributed by a single loop iteration. -/
noncomputable def gainStep (prev : Option GPXPoint) (p : GPXPoint) : ℝ :=
  match prev with
  | none => 0
  | some q => pairGain q p

/-- Elevation loss contributed by a single loop iteration. -/
noncomputable def lossStep (prev : Option GPXPoint) (p : GPXPoint) : ℝ :=
  match prev with
  | none => 0
  | some q => pairLoss q p

theorem stepElev_totalElevationGain (prev : Option GPXPoint) (p : GPXPoint)
    (s : LoopState) :
    (stepElev prev p s).totalElevationGain = s.totalElevationGain + gainStep prev p := by
  obtain ⟨plat, plon, pel, pt⟩ := p
  rcases prev with _ | ⟨qlat, qlon, qel, qt⟩
  · cases pel <;> simp [stepElev, gainStep]
  · cases pel with
    | none => cases qel <;> simp [stepElev, gainStep, pairGain]
    | some e =>
      cases qel with
      | none => simp [stepElev, gainStep, pairGain]
      | some qe =>
        simp only [stepElev, gainStep, pairGain, Option.bind]
        split_ifs with h <;> simp

theorem stepElev_totalElevationLoss (prev : Option GPXPoint) (p : GPXPoint)
    (s : LoopState) :
    (stepElev prev p s).totalElevationLoss = s.totalElevationLoss + lossStep prev p := by
  obtain ⟨plat, plon, pel, pt⟩ := p
  rcases prev with _ | ⟨qlat, qlon, qel, qt⟩
  · cases pel <;> simp [stepElev, lossStep]
  · cases pel with
    | none => cases qel <;> simp [stepElev, lossStep, pairLoss]
    | some e =>
      cases qel with
      | none => simp [stepElev, lossStep, pairLoss]
      | some qe =>
        simp only [stepElev, lossStep, pairLoss, Option.bind]
        split_ifs
        · linarith
        · simp
        · simp
        · have hz : e - qe = 0 := by linarith
          simp [hz]

theorem stepStats_totalDistance (prev : Option GPXPoint) (p : GPXPoint)
    (s : LoopState) :
    (stepStats prev s p).totalDistance = s.totalDistance + distStep prev p := by
  unfold stepStats
  rw [stepDist_totalDistance, stepTime_totalDistance, stepElev_totalDistance]

theorem stepStats_totalElevationGain (prev : Option GPXPoint) (p : GPXPoint)
    (s : LoopState) :
    (stepStats prev s p).totalElevationGain = s.totalElevationGain + gainStep prev p := by
  unfold stepStats
  rw [stepDist_totalElevationGain, stepTime_totalElevationGain,
    stepElev_totalElevationGain]

theorem stepStats_totalElevationLoss (prev : Option GPXPoint) (p : GPXPoint)
    (s : LoopState) :
    (stepStats prev s p).totalElevationLoss = s.totalElevationLoss + lossStep prev p := by
  unfold stepStats
  rw [stepDist_totalElevationLoss, stepTime_totalElevationLoss,
    stepElev_totalElevationLoss]

theorem stepStats_minElevation (prev : Option GPXPoint) (p : GPXPoint)
    (s : LoopState) :
    (stepStats prev s p).minElevation = minStep s.minElevation p := by
  unfold stepStats
  rw [stepDist_minElevation, stepTime_minElevation, stepElev_minElevation]

theorem stepStats_maxElevation (prev : Option GPXPoint) (p : GPXPoint)
    (s : LoopState) :
    (stepStats prev s p).maxElevation = maxStep s.maxElevation p := by
  unfold stepStats
  rw [stepDist_maxElevation, stepTime_maxElevation, stepElev_maxElevation]

theorem stepStats_startTime (prev : Option GPXPoint) (p : GPXPoint)
    (s : LoopState) :
    (stepStats prev s p).startTime = optOr s.startTime p.time := by
  unfold stepStats
  rw [stepDist_startTime, stepTime_startTime, stepElev_startTime]

theorem stepStats_endTime (prev : Option GPXPoint) (p : GPXPoint)
    (s : LoopState) :
    (stepStats prev s p).endTime = optOr p.time s.endTime := by
  unfold stepStats
  rw [stepDist_endTime, stepTime_endTime, stepElev_endTime]

theorem statsFold_totalDistance (l : List GPXPoint) :
    ∀ (prev : Option GPXPoint) (s : LoopState),
      (statsFold l prev s).totalDistance =
        s.totalDistance + pairwiseDistanceSum (consOpt prev l) := by
  induction l with
  | nil =>
    intro prev s
    cases prev <;> simp [statsFold, consOpt, pairwiseDistanceSum]
  | cons p rest ih =>
    intro prev s
    simp only [statsFold]
    rw [ih, stepStats_totalDistance]
    cases prev with
    | none => simp [consOpt, distStep]
    | some q => simp [consOpt, distStep, pairwiseDistanceSum, add_assoc]

theorem statsFold_totalElevationGain (l : List GPXPoint) :
    ∀ (prev : Option GPXPoint) (s : LoopState),
      (statsFold l prev s).totalElevationGain =
        s.totalElevationGain + specElevationGain (consOpt prev l) := by
  induction l with
  | nil =>
    intro prev s
    cases prev <;> simp [statsFold, consOpt, specElevationGain]
  | cons p rest ih =>
    intro prev s
    simp only [statsFold]
    rw [ih, stepStats_totalElevationGain]
    cases prev with
    | none => simp [consOpt, gainStep]
    | some q => simp [consOpt, gainStep, specElevationGain, add_assoc]

theorem statsFold_totalElevationLoss (l : List GPXPoint) :
    ∀ (prev : Option GPXPoint) (s : LoopState),
      (statsFold l prev s).totalElevationLoss =
        s.totalElevationLoss + specElevationLoss (consOpt prev l) := by
  induction l with
  | nil =>
    intro prev s
    cases prev <;> simp [statsFold, consOpt, specElevationLoss]
  | cons p rest ih =>
    intro prev s
    simp only [statsFold]
    rw [ih, stepStats_totalElevationLoss]
    cases prev with
    | none => simp [consOpt, lossStep]
    | some q => simp [consOpt, lossStep, specElevationLoss, add_assoc]

theorem statsFold_minElevation (l : List GPXPoint) :
    ∀ (prev : Option GPXPoint) (s : LoopState),
      (statsFold l prev s).minElevation =
        (l.filterMap GPXPoint.elevation).foldl (fun m e => some (minOpt m e))
          s.minElevation := by
  induction l with
  | nil => intro prev s; simp [statsFold]
  | cons p rest ih =>
    intro prev s
    simp only [statsFold]
    rw [ih, stepStats_minElevation]
    cases hp : p.elevation with
    | none => simp [List.filterMap_cons, hp, minStep]
    | some e => simp [List.filterMap_cons, hp, minStep]

theorem statsFold_maxElevation (l : List GPXPoint) :
    ∀ (prev : Option GPXPoint) (s : LoopState),
      (statsFold l prev s).maxElevation =
        (l.filterMap GPXPoint.elevation).foldl (fun m e => some (maxOpt m e))
          s.maxElevation := by
  induction l with
  | nil => intro prev s; simp [statsFold]
  | cons p rest ih =>
    intro prev s
    simp only [statsFold]
    rw [ih, stepStats_maxElevation]
    cases hp : p.elevation with
    | none => simp [List.filterMap_cons, hp, maxStep]
    | some e => simp [List.filterMap_cons, hp, maxStep]

theorem statsFold_startTime (l : List GPXPoint) :
    ∀ (prev : Option GPXPoint) (s : LoopState),
      (statsFold l prev s).startTime =
        optOr s.startTime (l.filterMap GPXPoint.time).head? := by
  induction l with
  | nil => intro prev s; simp [statsFold, optOr_none_right]
  | cons p rest ih =>
    intro prev s
    simp only [statsFold]
    rw [ih, stepStats_startTime]
    cases hp : p.time with
    | none => simp [List.filterMap_cons, hp, optOr_none_right]
    | some t =>
      simp only [List.filterMap_cons, hp, List.head?_cons]
      rw [optOr_assoc]
      rfl

theorem getLast?_cons_eq_optOr {α : Type _} (t : α) (xs : List α) :
    (t :: xs).getLast? = optOr xs.getLast? (some t) := by
  cases xs with
  | nil => rfl
  | cons y ys =>
    rw [List.getLast?_cons_cons]
    cases h : (y :: ys).getLast? with
    | none => simp [List.getLast?_eq_none_iff] at h
    | some z => rfl

theorem statsFold_endTime (l : List GPXPoint) :
    ∀ (prev : Option GPXPoint) (s : LoopState),
      (statsFold l prev s).endTime =
        optOr (l.filterMap GPXPoint.time).getLast? s.endTime := by
  induction l with
  | nil => intro prev s; simp [statsFold, optOr_none_left]
  | cons p rest ih =>
    intro prev s
    simp only [statsFold]
    rw [ih, stepStats_endTime]
    cases hp : p.time with
    | none =>
      have hfm : (p :: rest).filterMap GPXPoint.time = rest.filterMap GPXPoint.time := by
        simp [List.filterMap_cons, hp]
      rw [hfm, optOr_none_left]
    | some t =>
      simp only [List.filterMap_cons, hp]
      rw [getLast?_cons_eq_optOr, optOr_assoc]

end GPX

namespace GPX

theorem foldl_minOpt_some (l : List ℝ) :
    ∀ m0 : ℝ, l.foldl (fun m e => some (minOpt m e)) (some m0) =
      some (l.foldl min m0) := by
  induction l with
  | nil => intro m0; rfl
  | cons x xs ih =>
    intro m0
    simp only [List.foldl_cons]
    exact ih (min m0 x)

theorem foldl_minOpt_eq (l : List ℝ) :
    l.foldl (fun m e => some (minOpt m e)) none = l.min? := by
  cases l with
  | nil => rfl
  | cons x xs =>
    simp only [List.foldl_cons]
    exact foldl_minOpt_some xs x

theorem foldl_maxOpt_some (l : List ℝ) :
    ∀ m0 : ℝ, l.foldl (fun m e => some (maxOpt m e)) (some m0) =
      some (l.foldl max m0) := by
  induction l with
  | nil => intro m0; rfl
  | cons x xs ih =>
    intro m0
    simp only [List.foldl_cons]
    exact ih (max m0 x)

theorem foldl_maxOpt_eq (l : List ℝ) :
    l.foldl (fun m e => some (maxOpt m e)) none = l.max? := by
  cases l with
  | nil => rfl
  | cons x xs =>
    simp only [List.foldl_cons]
    exact foldl_maxOpt_some xs x

/-- Full characterisation of `calculateStats` on a track with at least
two points, with every field expressed by a specification-side quantity. -/
theorem calculateStats_spec (pts : List GPXPoint) (h : 2 ≤ pts.length) :
    calculateStats pts = some
      { totalDistance := pairwiseDistanceSum pts / 1000
        totalElevationGain := specElevationGain pts
        totalElevationLoss := specElevationLoss pts
        minElevation := (pts.filterMap GPXPoint.elevation).min?
        maxElevation := (pts.filterMap GPXPoint.elevation).max?
        duration :=
          match (pts.filterMap GPXPoint.time).head?,
              (pts.filterMap GPXPoint.time).getLast? with
          | some st, some et => some (et - st)
          | _, _ => none
        startTime := (pts.filterMap GPXPoint.time).head?
        endTime := (pts.filterMap GPXPoint.time).getLast?
        pointCount := pts.length } := by
  unfold calculateStats
  rw [if_neg (by omega)]
  dsimp only
  rw [statsFold_totalDistance, statsFold_totalElevationGain,
    statsFold_totalElevationLoss, statsFold_minElevation,
    statsFold_maxElevation, statsFold_startTime, statsFold_endTime]
  simp only [initState, consOpt, optOr_none_left, optOr_none_right, zero_add,
    foldl_minOpt_eq, foldl_maxOpt_eq]

theorem calculateDistance_same (p q : GPXPoint) (hlat : p.lat = q.lat)
    (hlon : p.lon = q.lon) : calculateDistance p q = 0 := by
  unfold calculateDistance atan2
  dsimp only
  rw [hlat, hlon]
  norm_num [Real.sqrt_one, Real.arctan_zero]

theorem calculateDistance_symm (p q : GPXPoint) :
    calculateDistance p q = calculateDistance q p := by
  have ha : Real.sin ((q.lat - p.lat) * Real.pi / 180 / 2) *
        Real.sin ((q.lat - p.lat) * Real.pi / 180 / 2) +
        Real.cos (p.lat * Real.pi / 180) * Real.cos (q.lat * Real.pi / 180) *
        Real.sin ((q.lon - p.lon) * Real.pi / 180 / 2) *
        Real.sin ((q.lon - p.lon) * Real.pi / 180 / 2) =
      Real.sin ((p.lat - q.lat) * Real.pi / 180 / 2) *
        Real.sin ((p.lat - q.lat) * Real.pi / 180 / 2) +
        Real.cos (q.lat * Real.pi / 180) * Real.cos (p.lat * Real.pi / 180) *
        Real.sin ((p.lon - q.lon) * Real.pi / 180 / 2) *
        Real.sin ((p.lon - q.lon) * Real.pi / 180 / 2) := by
    rw [show (p.lat - q.lat) * Real.pi / 180 / 2 =
      -((q.lat - p.lat) * Real.pi / 180 / 2) from by ring]
    rw [show (p.lon - q.lon) * Real.pi / 180 / 2 =
      -((q.lon - p.lon) * Real.pi / 180 / 2) from by ring]
    rw [Real.sin_neg, Real.sin_neg]
    ring
  unfold calculateDistance
  dsimp only
  rw [ha]

/-- The Haversine distance from (0°N, 0°E) to (0°N, 90°E) is a quarter
of the Earth circumference used by the routine. -/
theorem calculateDistance_equator90 :
    calculateDistance ⟨0, 0, none, none⟩ ⟨0, 90, none, none⟩ =
      6371000 * (Real.pi / 2) := by
  unfold calculateDistance
  dsimp only
  have h0 : ((0 : ℝ) - 0) * Real.pi / 180 / 2 = 0 := by ring
  have h90 : ((90 : ℝ) - 0) * Real.pi / 180 / 2 = Real.pi / 4 := by ring
  have hlat : (0 : ℝ) * Real.pi / 180 = 0 := by ring
  rw [h0, h90, hlat, Real.sin_zero, Real.cos_zero, Real.sin_pi_div_four]
  have ha : (0 : ℝ) * 0 + 1 * 1 * (Real.sqrt 2 / 2) * (Real.sqrt 2 / 2) = 1 / 2 := by
    have h2 : Real.sqrt 2 * Real.sqrt 2 = 2 := Real.mul_self_sqrt (by norm_num)
    nlinarith [h2]
  rw [ha]
  have hs : Real.sqrt ((1 : ℝ) - 1 / 2) = Real.sqrt (1 / 2) := by norm_num
  rw [hs]
  have hpos : 0 < Real.sqrt (1 / 2) := Real.sqrt_pos.mpr (by norm_num)
  unfold atan2
  rw [if_pos hpos]
  rw [div_self (ne_of_gt hpos), Real.arctan_one]
  ring

/-- Numeric envelope for the quarter-circumference value. -/
theorem equator90_within_one_meter :
    |6371000 * (Real.pi / 2) - 10007543| ≤ 1 := by
  rw [abs_le]
  constructor
  · nlinarith [Real.pi_gt_d20]
  · nlinarith [Real.pi_lt_d20]

end GPX

theorem page_stepStats_eq (prev : Option GPX.GPXPoint) (s : GPX.LoopState)
    (p : GPX.GPXPoint) :
    GPXPage.pageStepStats prev s p = GPX.stepStats prev s p := rfl

theorem page_statsFold_eq (l : List GPX.GPXPoint) :
    ∀ (prev : Option GPX.GPXPoint) (s : GPX.LoopState),
      GPXPage.pageStatsFold l prev s = GPX.statsFold l prev s := by
  induction l with
  | nil => intro prev s; rfl
  | cons p rest ih =>
    intro prev s
    simp only [GPXPage.pageStatsFold, GPX.statsFold]
    rw [page_stepStats_eq, ih]

/-- C9: the statistics routine duplicated inline in the gpx page
component (src/src/routes/gpx/+page.svelte) computes the same function
as the library routine (src/src/lib/stats.ts): on every input point
array the two return equal results. -/
theorem c9_page_calculateStats_eq_lib (pts : List GPX.GPXPoint) :
    GPXPage.calculateStats pts = GPX.calculateStats pts := by
  unfold GPXPage.calculateStats GPX.calculateStats
  rw [page_statsFold_eq]

/-- C7: calculateStats is deterministic and stateless; two invocations
on the same (unmutated) input sequence produce identical results. -/
theorem c7_calculateStats_deterministic (ps qs : List GPX.GPXPoint)
    (h : ps = qs) : GPX.calculateStats ps = GPX.calculateStats qs :=
  congrArg GPX.calculateStats h

theorem c7_calculateStats_deterministic_witness :
    ([] : List GPX.GPXPoint) = [] ∧
      GPX.calculateStats [] = GPX.calculateStats [] :=
  ⟨rfl, c7_calculateStats_deterministic [] [] rfl⟩

theorem string_append_m_ne_empty (s : String) : s ++ "m" ≠ "" := by
  intro hcontra
  have hlen := congrArg String.length hcontra
  rw [String.length_append] at hlen
  have h1 : ("m" : String).length = 1 := rfl
  have h0 : ("" : String).length = 0 := rfl
  rw [h1, h0] at hlen
  omega

/-- C10: formatDuration returns the string N/A for an absent duration
and also for a duration of exactly 0 milliseconds (JavaScript falsiness
of 0), and a nonempty string for every strictly positive duration. -/
theorem c10_formatDuration_spec :
    GPX.formatDuration none = "N/A" ∧
    GPX.formatDuration (some 0) = "N/A" ∧
    ∀ ms : ℤ, 0 < ms → GPX.formatDuration (some ms) ≠ "" := by
  refine ⟨rfl, rfl, ?_⟩
  intro ms hms
  unfold GPX.formatDuration
  dsimp only
  rw [if_neg (show ¬ms = 0 by omega)]
  split
  · exact string_append_m_ne_empty _
  · exact string_append_m_ne_empty _

theorem c10_formatDuration_spec_witness :
    (0 : ℤ) < 60000 ∧ GPX.formatDuration (some 60000) ≠ "" :=
  ⟨by decide, c10_formatDuration_spec.2.2 60000 (by decide)⟩

/-- C5: calculateStats returns null for a track with fewer than two
points, and for two or more points returns a record whose pointCount is
exactly the input length. -/
theorem c5_degenerate_and_pointCount :
    (∀ pts : List GPX.GPXPoint, pts.length < 2 → GPX.calculateStats pts = none) ∧
    (∀ pts : List GPX.GPXPoint, 2 ≤ pts.length →
      ∃ s, GPX.calculateStats pts = some s ∧ s.pointCount = pts.length) := by
  constructor
  · intro pts h
    unfold GPX.calculateStats
    rw [if_pos h]
  · intro pts h
    exact ⟨_, GPX.calculateStats_spec pts h, rfl⟩

theorem c5_degenerate_and_pointCount_witness :
    (([⟨0, 0, none, none⟩] : List GPX.GPXPoint).length < 2 ∧
      GPX.calculateStats [⟨0, 0, none, none⟩] = none) ∧
    (2 ≤ ([⟨0, 0, none, none⟩, ⟨1, 1, none, none⟩] : List GPX.GPXPoint).length ∧
      ∃ s, GPX.calculateStats [⟨0, 0, none, none⟩, ⟨1, 1, none, none⟩] = some s ∧
        s.pointCount = ([⟨0, 0, none, none⟩, ⟨1, 1, none, none⟩] : List GPX.GPXPoint).length) :=
  ⟨⟨by decide, c5_degenerate_and_pointCount.1 _ (by decide)⟩,
    ⟨by decide, c5_degenerate_and_pointCount.2 _ (by decide)⟩⟩

/-- C1 counterexample: on the two-point track from (0°N, 0°E) to
(0°N, 90°E) the totalDistance field is the metered pairwise sum divided
by 1000 (kilometers), not the sum in meters the claim asserts. -/
theorem c1_counterexample :
    GPX.pairwiseDistanceSum
        [⟨0, 0, none, none⟩, ⟨0, 90, none, none⟩] = 6371000 * (Real.pi / 2) ∧
    (GPX.calculateStats [⟨0, 0, none, none⟩, ⟨0, 90, none, none⟩]).map
        GPX.TraceStats.totalDistance = some (6371000 * (Real.pi / 2) / 1000) ∧
    (6371000 * (Real.pi / 2) / 1000 : ℝ) ≠ 6371000 * (Real.pi / 2) := by
  have hsum : GPX.pairwiseDistanceSum
      [(⟨0, 0, none, none⟩ : GPX.GPXPoint), ⟨0, 90, none, none⟩] =
      6371000 * (Real.pi / 2) := by
    simp [GPX.pairwiseDistanceSum, GPX.calculateDistance_equator90]
  refine ⟨hsum, ?_, ?_⟩
  · rw [GPX.calculateStats_spec _ (by decide)]
    simp [hsum]
  · intro hcontra
    have hx : (6371000 : ℝ) * (Real.pi / 2) = 0 := by linarith
    have hpi := Real.pi_pos
    linarith

/-- C1 (amended): for every track with at least 2 points, the
totalDistance field equals the sum of the Haversine great-circle
distances in meters over all consecutive point pairs divided by 1000,
i.e. the routine converts the accumulated meters to kilometers before
returning. -/
theorem c1_totalDistance_km (pts : List GPX.GPXPoint) (h : 2 ≤ pts.length) :
    ∃ s, GPX.calculateStats pts = some s ∧
      s.totalDistance = GPX.pairwiseDistanceSum pts / 1000 :=
  ⟨_, GPX.calculateStats_spec pts h, rfl⟩

theorem c1_totalDistance_km_witness :
    2 ≤ ([⟨0, 0, none, none⟩, ⟨0, 90, none, none⟩] : List GPX.GPXPoint).length ∧
    ∃ s, GPX.calculateStats [⟨0, 0, none, none⟩, ⟨0, 90, none, none⟩] = some s ∧
      s.totalDistance =
        GPX.pairwiseDistanceSum
          [⟨0, 0, none, none⟩, ⟨0, 90, none, none⟩] / 1000 :=
  ⟨by decide, c1_totalDistance_km _ (by decide)⟩

namespace GPX

theorem pairwiseDistanceSum_append_single (l : List GPXPoint) (x : GPXPoint) :
    pairwiseDistanceSum (l ++ [x]) = pairwiseDistanceSum l +
      (match l.getLast? with
       | none => 0
       | some y => calculateDistance y x) := by
  induction l with
  | nil => simp [pairwiseDistanceSum]
  | cons p rest ih =>
    cases rest with
    | nil => simp [pairwiseDistanceSum]
    | cons q rest2 =>
      show calculateDistance p q + pairwiseDistanceSum ((q :: rest2) ++ [x]) =
        pairwiseDistanceSum (p :: q :: rest2) +
          (match (p :: q :: rest2).getLast? with
           | none => 0
           | some y => calculateDistance y x)
      rw [ih, List.getLast?_cons_cons]
      rw [show pairwiseDistanceSum (p :: q :: rest2) =
        calculateDistance p q + pairwiseDistanceSum (q :: rest2) from rfl]
      ring

theorem pairwiseDistanceSum_reverse (l : List GPXPoint) :
    pairwiseDistanceSum l.reverse = pairwiseDistanceSum l := by
  induction l with
  | nil => rfl
  | cons p rest ih =>
    rw [List.reverse_cons, pairwiseDistanceSum_append_single, ih,
      List.getLast?_reverse]
    cases rest with
    | nil => simp [pairwiseDistanceSum]
    | cons q rest2 =>
      simp only [List.head?_cons, pairwiseDistanceSum]
      rw [calculateDistance_symm q p]
      ring

theorem real_min?_eq_some_iff (l : List ℝ) (a : ℝ) :
    l.min? = some a ↔ a ∈ l ∧ ∀ b, b ∈ l → a ≤ b := by
  haveI : Std.Antisymm ((· : ℝ) ≤ ·) := ⟨fun h1 h2 => le_antisymm h1 h2⟩
  exact List.min?_eq_some_iff (fun x => le_refl x) (fun x y => min_choice x y)
    (fun x y z => le_min_iff)

theorem real_max?_eq_some_iff (l : List ℝ) (a : ℝ) :
    l.max? = some a ↔ a ∈ l ∧ ∀ b ∈ l, b ≤ a := by
  haveI : Std.Antisymm ((· : ℝ) ≤ ·) := ⟨fun h1 h2 => le_antisymm h1 h2⟩
  exact List.max?_eq_some_iff (fun x => le_refl x) (fun x y => max_choice x y)
    (fun x y z => max_le_iff)

end GPX

/-- C2 counterexample: on a two-point track whose only timestamped point
is the first one (exactly one timestamped point, fewer than two), the
duration field is 0, not absent as the claim asserts. -/
theorem c2_counterexample :
    ([⟨0, 0, none, some 5⟩, ⟨0, 0, none, none⟩] : List GPX.GPXPoint).countP
        (fun p => p.time.isSome) = 1 ∧
    (GPX.calculateStats [⟨0, 0, none, some 5⟩, ⟨0, 0, none, none⟩]).map
        GPX.TraceStats.duration = some (some 0) ∧
    (some (some (0 : ℤ)) : Option (Option ℤ)) ≠ some none := by
  refine ⟨by decide, ?_, by decide⟩
  rw [GPX.calculateStats_spec _ (by decide)]
  norm_num [List.filterMap_cons]

/-- C2 (amended): for every track with at least 2 points, the duration
field is absent (null) if and only if no point of the track carries a
timestamp; a single timestamped point already yields a present duration
(0 when first and last timestamped point coincide). -/
theorem c2_duration_absent_iff (pts : List GPX.GPXPoint)
    (h : 2 ≤ pts.length) :
    ∃ s, GPX.calculateStats pts = some s ∧
      (s.duration = none ↔ ∀ p ∈ pts, p.time = none) := by
  refine ⟨_, GPX.calculateStats_spec pts h, ?_⟩
  dsimp only
  cases ht : pts.filterMap GPX.GPXPoint.time with
  | nil =>
    exact iff_of_true rfl (List.filterMap_eq_nil_iff.mp ht)
  | cons t ts =>
    obtain ⟨z, hz⟩ : ∃ z, (t :: ts).getLast? = some z := by
      cases hg : (t :: ts).getLast? with
      | none =>
        rw [List.getLast?_eq_none_iff] at hg
        exact absurd hg (List.cons_ne_nil t ts)
      | some z => exact ⟨z, rfl⟩
    rw [List.head?_cons, hz]
    dsimp only
    constructor
    · intro habs
      exact absurd habs (by simp)
    · intro hall
      have hnil : pts.filterMap GPX.GPXPoint.time = [] :=
        List.filterMap_eq_nil_iff.mpr hall
      rw [hnil] at ht
      exact absurd ht.symm (List.cons_ne_nil t ts)

theorem c2_duration_absent_iff_witness :
    2 ≤ ([⟨0, 0, none, some 5⟩, ⟨0, 0, none, none⟩] : List GPX.GPXPoint).length ∧
    ∃ s, GPX.calculateStats [⟨0, 0, none, some 5⟩, ⟨0, 0, none, none⟩] = some s ∧
      (s.duration = none ↔
        ∀ p ∈ ([⟨0, 0, none, some 5⟩, ⟨0, 0, none, none⟩] : List GPX.GPXPoint),
          p.time = none) :=
  ⟨by decide, c2_duration_absent_iff _ (by decide)⟩

/-- C3: totalElevationGain sums the positive elevation deltas and
totalElevationLoss the absolute values of the negative deltas, over
consecutive pairs where both points record an elevation; the elevation
sequence 10, 5, 5, 20 yields gain 15 and loss 5. -/
theorem c3_elevation_gain_loss :
    (∀ pts : List GPX.GPXPoint, 2 ≤ pts.length →
      ∃ s, GPX.calculateStats pts = some s ∧
        s.totalElevationGain = GPX.specElevationGain pts ∧
        s.totalElevationLoss = GPX.specElevationLoss pts) ∧
    (∃ s, GPX.calculateStats
          [⟨0, 0, some 10, none⟩, ⟨0, 0, some 5, none⟩,
            ⟨0, 0, some 5, none⟩, ⟨0, 0, some 20, none⟩] = some s ∧
        s.totalElevationGain = 15 ∧ s.totalElevationLoss = 5) := by
  have habs1 : |(5 : ℝ) - 10| = 5 := by
    have hge : (0 : ℝ) ≤ 10 - 5 := by norm_num
    rw [abs_sub_comm, abs_of_nonneg hge]
    norm_num
  have habs2 : |(-5 : ℝ)| = 5 := by
    have hge : (0 : ℝ) ≤ 5 := by norm_num
    rw [abs_neg, abs_of_nonneg hge]
  constructor
  · intro pts h
    exact ⟨_, GPX.calculateStats_spec pts h, rfl, rfl⟩
  · refine ⟨_, GPX.calculateStats_spec _ (by decide), ?_, ?_⟩
    · dsimp only
      norm_num [GPX.specElevationGain, GPX.pairGain]
    · dsimp only
      norm_num [GPX.specElevationLoss, GPX.pairLoss, habs1, habs2]

theorem c3_elevation_gain_loss_witness :
    2 ≤ ([⟨0, 0, some 10, none⟩, ⟨0, 0, some 5, none⟩,
        ⟨0, 0, some 5, none⟩, ⟨0, 0, some 20, none⟩] : List GPX.GPXPoint).length ∧
    ∃ s, GPX.calculateStats
        [⟨0, 0, some 10, none⟩, ⟨0, 0, some 5, none⟩,
          ⟨0, 0, some 5, none⟩, ⟨0, 0, some 20, none⟩] = some s ∧
      s.totalElevationGain = GPX.specElevationGain
        [⟨0, 0, some 10, none⟩, ⟨0, 0, some 5, none⟩,
          ⟨0, 0, some 5, none⟩, ⟨0, 0, some 20, none⟩] ∧
      s.totalElevationLoss = GPX.specElevationLoss
        [⟨0, 0, some 10, none⟩, ⟨0, 0, some 5, none⟩,
          ⟨0, 0, some 5, none⟩, ⟨0, 0, some 20, none⟩] :=
  ⟨by decide, c3_elevation_gain_loss.1 _ (by decide)⟩

/-- C4: calculateDistance gives 0 for two identical points, and the
distance from (0°N, 0°E) to (0°N, 90°E) is exactly a quarter great
circle, 6371000·π/2 meters, which is within 1 meter of 10007543. -/
theorem c4_haversine_distance :
    (∀ p : GPX.GPXPoint, GPX.calculateDistance p p = 0) ∧
    GPX.calculateDistance ⟨0, 0, none, none⟩ ⟨0, 90, none, none⟩ =
      6371000 * (Real.pi / 2) ∧
    |GPX.calculateDistance ⟨0, 0, none, none⟩ ⟨0, 90, none, none⟩ -
        10007543| ≤ 1 := by
  refine ⟨fun p => GPX.calculateDistance_same p p rfl rfl,
    GPX.calculateDistance_equator90, ?_⟩
  rw [GPX.calculateDistance_equator90]
  exact GPX.equator90_within_one_meter

/-- C6: minElevation and maxElevation are both absent iff no point of
the track records an elevation; otherwise they are the minimum and
maximum over every point with an elevation value, so min ≤ max whenever
present. -/
theorem c6_min_max_elevation (pts : List GPX.GPXPoint) (h : 2 ≤ pts.length) :
    ∃ s, GPX.calculateStats pts = some s ∧
      ((s.minElevation = none ∧ s.maxElevation = none) ↔
        ∀ p ∈ pts, p.elevation = none) ∧
      (∀ m, s.minElevation = some m →
        (∃ p ∈ pts, p.elevation = some m) ∧
          ∀ p ∈ pts, ∀ e, p.elevation = some e → m ≤ e) ∧
      (∀ M, s.maxElevation = some M →
        (∃ p ∈ pts, p.elevation = some M) ∧
          ∀ p ∈ pts, ∀ e, p.elevation = some e → e ≤ M) ∧
      (∀ m M, s.minElevation = some m → s.maxElevation = some M → m ≤ M) := by
  refine ⟨_, GPX.calculateStats_spec pts h, ?_, ?_, ?_, ?_⟩
  · dsimp only
    simp
  · dsimp only
    intro m hm
    rw [GPX.real_min?_eq_some_iff] at hm
    obtain ⟨hmem, hle⟩ := hm
    rw [List.mem_filterMap] at hmem
    obtain ⟨p, hp, hpe⟩ := hmem
    refine ⟨⟨p, hp, hpe⟩, ?_⟩
    intro q hq e he
    exact hle e (List.mem_filterMap.mpr ⟨q, hq, he⟩)
  · dsimp only
    intro M hM
    rw [GPX.real_max?_eq_some_iff] at hM
    obtain ⟨hmem, hle⟩ := hM
    rw [List.mem_filterMap] at hmem
    obtain ⟨p, hp, hpe⟩ := hmem
    refine ⟨⟨p, hp, hpe⟩, ?_⟩
    intro q hq e he
    exact hle e (List.mem_filterMap.mpr ⟨q, hq, he⟩)
  · dsimp only
    intro m M hm hM
    rw [GPX.real_min?_eq_some_iff] at hm
    rw [GPX.real_max?_eq_some_iff] at hM
    exact hM.2 m hm.1

theorem c6_min_max_elevation_witness :
    2 ≤ ([⟨0, 0, some 3, none⟩, ⟨0, 0, some 7, none⟩] : List GPX.GPXPoint).length ∧
    ∃ s, GPX.calculateStats [⟨0, 0, some 3, none⟩, ⟨0, 0, some 7, none⟩] = some s ∧
      ((s.minElevation = none ∧ s.maxElevation = none) ↔
        ∀ p ∈ ([⟨0, 0, some 3, none⟩, ⟨0, 0, some 7, none⟩] : List GPX.GPXPoint),
          p.elevation = none) ∧
      (∀ m, s.minElevation = some m →
        (∃ p ∈ ([⟨0, 0, some 3, none⟩, ⟨0, 0, some 7, none⟩] : List GPX.GPXPoint),
            p.elevation = some m) ∧
          ∀ p ∈ ([⟨0, 0, some 3, none⟩, ⟨0, 0, some 7, none⟩] : List GPX.GPXPoint),
            ∀ e, p.elevation = some e → m ≤ e) ∧
      (∀ M, s.maxElevation = some M →
        (∃ p ∈ ([⟨0, 0, some 3, none⟩, ⟨0, 0, some 7, none⟩] : List GPX.GPXPoint),
            p.elevation = some M) ∧
          ∀ p ∈ ([⟨0, 0, some 3, none⟩, ⟨0, 0, some 7, none⟩] : List GPX.GPXPoint),
            ∀ e, p.elevation = some e → e ≤ M) ∧
      (∀ m M, s.minElevation = some m → s.maxElevation = some M → m ≤ M) :=
  ⟨by decide, c6_min_max_elevation _ (by decide)⟩

/-- C8: reversing the point order preserves totalDistance (the segment
distance is symmetric in its endpoints) and swaps which timestamped
points determine startTime and endTime. -/
theorem c8_reverse_track (pts : List GPX.GPXPoint) (h : 2 ≤ pts.length) :
    ∃ s t, GPX.calculateStats pts = some s ∧
      GPX.calculateStats pts.reverse = some t ∧
      t.totalDistance = s.totalDistance ∧
      t.startTime = s.endTime ∧
      t.endTime = s.startTime := by
  have hrev : 2 ≤ pts.reverse.length := by
    rw [List.length_reverse]
    exact h
  refine ⟨_, _, GPX.calculateStats_spec pts h,
    GPX.calculateStats_spec pts.reverse hrev, ?_, ?_, ?_⟩
  · dsimp only
    rw [GPX.pairwiseDistanceSum_reverse]
  · dsimp only
    rw [List.filterMap_reverse, List.head?_reverse]
  · dsimp only
    rw [List.filterMap_reverse, List.getLast?_reverse]

theorem c8_reverse_track_witness :
    2 ≤ ([⟨0, 0, none, some 3⟩, ⟨0, 90, none, some 8⟩] : List GPX.GPXPoint).length ∧
    ∃ s t, GPX.calculateStats [⟨0, 0, none, some 3⟩, ⟨0, 90, none, some 8⟩] = some s ∧
      GPX.calculateStats
        ([⟨0, 0, none, some 3⟩, ⟨0, 90, none, some 8⟩] : List GPX.GPXPoint).reverse =
          some t ∧
      t.totalDistance = s.totalDistance ∧
      t.startTime = s.endTime ∧
      t.endTime = s.startTime :=
  ⟨by decide, c8_reverse_track _ (by decide)⟩
